import Mathlib

/-!
Verification of the taplo Pants plugin (pants-plugins/taplo): the tailor
discovery rule in toml_sources.py and the formatting rules in taplo_fmt.py.
File paths are modelled as lists of characters so that character-level
operations of the Python source (os.path.split, substring tests, iteration
over a string) are represented exactly.
-/

namespace TaploSpec

/-- A file path (or any Python string), modelled as its list of characters. -/
abbrev Path := List Char

/-- Converts a Lean string literal to the Path model. -/
def pstr (s : String) : Path := s.toList

/-- Python's builtin sorted on a list of strings: lexicographic order on the
character lists, realised with insertion sort. -/
def pysorted (l : List Path) : List Path := l.insertionSort (· ≤ ·)

/-- Modelled from CPython's posixpath.split, used by pants group_by_dir:
the tail is everything after the final slash; the head is everything before
it, with trailing slashes stripped unless the head consists only of slashes. -/
def ospath_split (p : Path) : Path × Path :=
  let tail := (p.reverse.takeWhile (fun c => c != '/')).reverse
  let headRaw := p.take (p.length - tail.length)
  let head :=
    if !headRaw.isEmpty && headRaw.any (fun c => c != '/') then
      (headRaw.reverse.dropWhile (fun c => c == '/')).reverse
    else headRaw
  (head, tail)

/-- Inserts filename f into the group of directory d, keeping key insertion
order and never duplicating a filename inside a group (the Python value is a
set). -/
def addToGroup : List (Path × List Path) → Path → Path → List (Path × List Path)
  | [], d, f => [(d, [f])]
  | (d', fs) :: rest, d, f =>
    if d' = d then (d', if f ∈ fs then fs else fs ++ [f]) :: rest
    else (d', fs) :: addToGroup rest d f

/-- Modelled from pants.util.dirutil.group_by_dir (collaborator library used
by toml_sources.py): for an iterable of paths, a dict from directory to the
set of filenames directly inside it, built with os.path.split. -/
def group_by_dir (paths : List Path) : List (Path × List Path) :=
  paths.foldl (fun g p => addToGroup g (ospath_split p).1 (ospath_split p).2) []

/-- A putative target proposal as built by PutativeTarget.for_target_type in
find_putative_targets: the directory path, the (always None) name, and the
sorted triggering sources. -/
structure PutativeTarget where
  path : Path
  name : Option Path
  triggering_sources : List Path
  deriving DecidableEq

/-- Embeds line 110 of toml_sources.py: the Python set difference
set(all_toml_files.files) - set(all_owned_sources), as a deduplicated
filtered list (theorem c3 shows the enumeration order is immaterial). -/
def unowned_toml_files (all_toml_files all_owned_sources : List Path) : List Path :=
  all_toml_files.dedup.filter (fun f => !decide (f ∈ all_owned_sources))

/-- Embeds lines 112-123 of toml_sources.py. The source loops
`for paths in unowned_toml_files` and passes the single string `paths` to
group_by_dir, so group_by_dir iterates over the characters of the path; this
is represented by `paths.map (fun c => [c])`, each character becoming a
one-character path. -/
def discover (all_toml_files all_owned_sources : List Path) : List PutativeTarget :=
  (unowned_toml_files all_toml_files all_owned_sources).flatMap (fun paths =>
    (group_by_dir (paths.map (fun c => [c]))).map (fun g =>
      { path := g.1, name := none, triggering_sources := pysorted g.2 }))

/-- Embeds find_putative_targets (toml_sources.py lines 102-123): the tailor
option of the toml-setup subsystem gates discovery; candidate files are the
*.toml path-glob result, owned files come from AllOwnedSources. -/
def find_putative_targets (tailor : Bool) (all_toml_files all_owned_sources : List Path) :
    List PutativeTarget :=
  if !tailor then [] else discover all_toml_files all_owned_sources

/-- Default of the toml-setup tailor option (toml_sources.py lines 38-46). -/
def tailor_default : Bool := true

/-- The fields of a Process relevant to the subprocess contract: the argument
vector and the declared output files. -/
structure ProcessSpec where
  argv : List Path
  output_files : List Path
  deriving DecidableEq

/-- Embeds the process construction of taplo_fmt (taplo_fmt.py lines 131-143):
argv = [downloaded exe, "fmt", *taplo.args, *request.files] and
output_files = request.files. -/
def taplo_fmt_process (exe : Path) (args files : List Path) : ProcessSpec :=
  { argv := exe :: pstr "fmt" :: (args ++ files), output_files := files }

/-- Embeds the process construction of pyproject_toml_fmt (taplo_fmt.py lines
189-201), textually identical to the one in taplo_fmt. -/
def pyproject_toml_fmt_process (exe : Path) (args files : List Path) : ProcessSpec :=
  { argv := exe :: pstr "fmt" :: (args ++ files), output_files := files }

/-- Boolean test that n begins the list h (Python str.startswith on the
character model). -/
def isPrefixB : Path → Path → Bool
  | [], _ => true
  | _ :: _, [] => false
  | a :: as, b :: bs => a == b && isPrefixB as bs

/-- Python's substring containment `needle in hay`: some position of hay
starts with needle. -/
def containsSub (needle : Path) : Path → Bool
  | [] => isPrefixB needle []
  | c :: t => isPrefixB needle (c :: t) || containsSub needle t

/-- Embeds Taplo.pyproject_checker (taplo_fmt.py lines 76-78): deduplicate the
input paths (Python set) and keep those containing "pyproject.toml". -/
def pyproject_checker (filepaths : List Path) : List Path :=
  filepaths.dedup.filter (fun f => containsSub (pstr "pyproject.toml") f)

/-- Embeds partition_pyprojects (taplo_fmt.py lines 153-160): empty partition
list when the skip option is set, otherwise one partition holding the sorted
checker output. -/
def partition_pyprojects (skip : Bool) (files : List Path) : List (List Path) :=
  if skip then [] else [pysorted (pyproject_checker files)]

/-- Modelled from CPython's posixpath.join for two components, used by
Taplo.config_request: b when b is absolute, a ++ b when a is empty or ends in
a slash, otherwise a ++ "/" ++ b. -/
def ospath_join (a b : Path) : Path :=
  if isPrefixB (pstr "/") b then b
  else if a.isEmpty || isPrefixB (pstr "/") a.reverse then a ++ b
  else a ++ pstr "/" ++ b

/-- The fields of a ConfigFilesRequest relevant here: the discovery flag and
the paths whose existence is checked. -/
structure ConfigFilesRequest where
  discovery : Bool
  check_existence : List Path
  deriving DecidableEq

/-- Default of the taplo config_discovery option (taplo_fmt.py lines 55-63). -/
def config_discovery_default : Bool := true

/-- Embeds Taplo.config_request (taplo_fmt.py lines 68-74): candidates are
.taplo.toml joined to "" and to every input dir, then taplo.toml likewise;
the discovery flag is the config_discovery option. -/
def config_request (config_discovery : Bool) (dirs : List Path) : ConfigFilesRequest :=
  { discovery := config_discovery
    check_existence :=
      (pstr "" :: dirs).map (fun d => ospath_join d (pstr ".taplo.toml")) ++
      (pstr "" :: dirs).map (fun d => ospath_join d (pstr "taplo.toml")) }

/-- The target fields appearing in the declarative target classes of this
plugin. -/
inductive TargetField
  | tags
  | description
  | tomlDependencies
  | tomlSource
  | tomlGeneratingSources
  | tomlOverrides
  | skipTaplo
  deriving DecidableEq

/-- Modelled from the spec: pants COMMON_TARGET_FIELDS, the shared tags and
description fields (a collaborator constant, not in this repository). -/
def COMMON_TARGET_FIELDS : List TargetField := [.tags, .description]

/-- Default of SkipTaploField (taplo_fmt.py lines 81-84). -/
def SkipTaploField_default : Bool := false

/-- Default glob of TomlSourcesGeneratingSourcesField (toml_sources.py line 64). -/
def TomlSourcesGeneratingSourcesField_default : List Path := [pstr "*.toml"]

/-- uses_source_roots of TomlSourcesGeneratingSourcesField (toml_sources.py
line 65). -/
def TomlSourcesGeneratingSourcesField_uses_source_roots : Bool := false

/-- The generator-relevant class attributes of a TargetFilesGenerator. -/
structure TargetFilesGeneratorSpec where
  core_fields : List TargetField
  copied_fields : List TargetField
  moved_fields : List TargetField
  deriving DecidableEq

/-- Embeds the class attributes of TomlSourcesGeneratorTarget
(toml_sources.py lines 83-93). -/
def TomlSourcesGeneratorTarget_spec : TargetFilesGeneratorSpec :=
  { core_fields := COMMON_TARGET_FIELDS ++ [.tomlGeneratingSources, .tomlOverrides]
    copied_fields := COMMON_TARGET_FIELDS
    moved_fields := [.tomlDependencies] }

/-- The four platforms of default_known_versions (taplo_fmt.py lines 39-44). -/
inductive Platform
  | macos_arm64
  | macos_x86_64
  | linux_arm64
  | linux_x86_64
  deriving DecidableEq

/-- Default pinned version of the taplo tool (taplo_fmt.py line 38). -/
def default_version : Path := pstr "0.8.0"

/-- Embeds default_url_platform_mapping (taplo_fmt.py lines 46-51). -/
def default_url_platform_mapping : Platform → Path
  | .macos_arm64 => pstr "darwin-aarch64"
  | .macos_x86_64 => pstr "darwin-x86_64"
  | .linux_arm64 => pstr "linux-aarch64"
  | .linux_x86_64 => pstr "linux-x86_64"

/-- generate_url: the TemplatedExternalTool collaborator substitutes version
and the mapped platform into default_url_template (taplo_fmt.py line 45);
the substitution is modelled from the template string. -/
def generate_url (plat : Platform) : Path :=
  pstr "https://github.com/tamasfe/taplo/releases/download/" ++ default_version ++
    pstr "/taplo-" ++ default_url_platform_mapping plat ++ pstr ".gz"

/-- Python str.rsplit(sep, 1) final element: everything after the last slash,
or the whole string when there is none. -/
def lastSegment (p : Path) : Path := (p.reverse.takeWhile (fun c => c != '/')).reverse

/-- Python str.removesuffix: drop suf from the end of p when p ends with the
nonempty suf, otherwise p unchanged. -/
def removesuffix (suf p : Path) : Path :=
  if !suf.isEmpty && isPrefixB suf.reverse p.reverse then p.take (p.length - suf.length)
  else p

/-- Embeds Taplo.generate_exe (taplo_fmt.py lines 65-66). -/
def generate_exe (plat : Platform) : Path :=
  pstr "./" ++ removesuffix (pstr ".gz") (lastSegment (generate_url plat))

/-- With the tailor option enabled, discovery is the loop body of
find_putative_targets. -/
theorem fpt_true (C O : List Path) : find_putative_targets true C O = discover C O := rfl

/-- Characterisation of the startswith test. -/
theorem isPrefixB_iff (n h : Path) : isPrefixB n h = true ↔ ∃ t, h = n ++ t := by
  induction n generalizing h with
  | nil => simp [isPrefixB]
  | cons a as ih =>
    cases h with
    | nil => simp [isPrefixB]
    | cons b bs =>
      simp only [isPrefixB, Bool.and_eq_true, beq_iff_eq, ih, List.cons_append,
        List.cons.injEq]
      constructor
      · rintro ⟨rfl, t, rfl⟩
        exact ⟨t, rfl, rfl⟩
      · rintro ⟨t, rfl, rfl⟩
        exact ⟨rfl, t, rfl⟩

/-- Characterisation of Python substring containment: containsSub holds
exactly when the haystack decomposes around the needle. -/
theorem containsSub_iff (n h : Path) :
    containsSub n h = true ↔ ∃ pre post, h = pre ++ n ++ post := by
  induction h with
  | nil =>
    simp only [containsSub, isPrefixB_iff]
    constructor
    · rintro ⟨t, ht⟩
      exact ⟨[], t, by simpa using ht⟩
    · rintro ⟨pre, post, hp⟩
      rcases List.append_eq_nil.mp ((List.append_assoc _ _ _ ▸ hp).symm) with ⟨h1, h2⟩
      exact ⟨post, by simp [h2, List.append_eq_nil.mp h2]⟩
  | cons c t ih =>
    simp only [containsSub, Bool.or_eq_true, isPrefixB_iff, ih]
    constructor
    · rintro (⟨post, hp⟩ | ⟨pre, post, hp⟩)
      · exact ⟨[], post, by simpa using hp⟩
      · exact ⟨c :: pre, post, by simp [hp]⟩
    · rintro ⟨pre, post, hp⟩
      cases pre with
      | nil => exact Or.inl ⟨post, by simpa using hp⟩
      | cons d ds =>
        simp only [List.cons_append, List.cons.injEq] at hp
        exact Or.inr ⟨ds, post, hp.2⟩

/-- C1: the grouping invariant fails on the code. At candidate set
{"a/y.toml"} with empty owned set, the unclaimed set is {"a/y.toml"}, but the
source passes each unclaimed path string itself to group_by_dir, which
iterates over its characters: the proposals are keyed by "" and "/" with
one-character triggering sources, and "y.toml" appears in no group keyed by
its immediate parent directory "a". -/
theorem c1_grouping_invariant_fails :
    find_putative_targets true [pstr "a/y.toml"] [] =
      [{ path := pstr "", name := none,
         triggering_sources :=
           [pstr ".", pstr "a", pstr "l", pstr "m", pstr "o", pstr "t", pstr "y"] },
       { path := pstr "/", name := none, triggering_sources := [pstr ""] }] ∧
    ∀ pt ∈ find_putative_targets true [pstr "a/y.toml"] [],
      pstr "y.toml" ∉ pt.triggering_sources ∧ pt.path ≠ pstr "a" := by decide

/-- C2: the documented scenario fails on the code. For candidates
{"a/x.toml", "a/y.toml", "b/z.toml"} and owned {"a/x.toml"} the code emits
four proposals built from the characters of each unclaimed path, not the two
proposals (dir "a" with ["y.toml"], dir "b" with ["z.toml"]) the claim
states. -/
theorem c2_scenario_fails :
    find_putative_targets true
        [pstr "a/x.toml", pstr "a/y.toml", pstr "b/z.toml"] [pstr "a/x.toml"] =
      [{ path := pstr "", name := none,
         triggering_sources :=
           [pstr ".", pstr "a", pstr "l", pstr "m", pstr "o", pstr "t", pstr "y"] },
       { path := pstr "/", name := none, triggering_sources := [pstr ""] },
       { path := pstr "", name := none,
         triggering_sources :=
           [pstr ".", pstr "b", pstr "l", pstr "m", pstr "o", pstr "t", pstr "z"] },
       { path := pstr "/", name := none, triggering_sources := [pstr ""] }] := by decide

/-- C3: discovery is deterministic: its output depends only on the candidate
and owned sets, not on the enumeration order of the candidate set — any
re-enumeration permutes the proposals and nothing else — and every proposal's
triggering source list is sorted lexicographically. There is no prior-run
state in the rule. -/
theorem c3_discovery_deterministic (tailor : Bool) (C Cp O : List Path) (h : C.Perm Cp) :
    (find_putative_targets tailor C O).Perm (find_putative_targets tailor Cp O) ∧
    ∀ pt ∈ find_putative_targets tailor C O,
      pt.triggering_sources.Sorted (· ≤ ·) := by
  constructor
  · cases tailor with
    | false => exact List.Perm.refl _
    | true => exact ((h.dedup.filter _).flatMap_right _)
  · intro pt hpt
    cases tailor with
    | false => simp [find_putative_targets] at hpt
    | true =>
      rw [fpt_true] at hpt
      obtain ⟨paths, hp, hmem⟩ := List.mem_flatMap.mp hpt
      obtain ⟨g, hg, rfl⟩ := List.mem_map.mp hmem
      exact List.sorted_insertionSort _ _

/-- C3 witness: the determinism theorem applied at a concrete permuted pair
of candidate enumerations. -/
theorem c3_discovery_deterministic_witness :
    (find_putative_targets true [pstr "a/y.toml", pstr "b/z.toml"] []).Perm
        (find_putative_targets true [pstr "b/z.toml", pstr "a/y.toml"] []) ∧
    ∀ pt ∈ find_putative_targets true [pstr "a/y.toml", pstr "b/z.toml"] [],
      pt.triggering_sources.Sorted (· ≤ ·) :=
  c3_discovery_deterministic true _ _ [] (by decide)

/-- C4: when every candidate file is already owned (in particular the fully
owned directory and the empty scenarios), the unclaimed set is empty and
discovery proposes nothing. -/
theorem c4_fully_owned_empty (tailor : Bool) (C O : List Path)
    (h : ∀ f ∈ C, f ∈ O) : find_putative_targets tailor C O = [] := by
  cases tailor with
  | false => rfl
  | true =>
    rw [fpt_true]
    have hu : unowned_toml_files C O = [] := by
      simp only [unowned_toml_files, List.filter_eq_nil_iff]
      intro a ha
      have := h a (List.mem_dedup.mp ha)
      simp [this]
    simp [discover, hu]

/-- C4 witness: the fully owned single-directory scenario. -/
theorem c4_fully_owned_empty_witness :
    find_putative_targets true [pstr "a/x.toml"] [pstr "a/x.toml"] = [] :=
  c4_fully_owned_empty true _ _ (by decide)

/-- C5: with the tailor option disabled, discovery short-circuits to the
empty proposal list for every candidate and owned set; the embedding is a
total function, so no branch raises a domain error. -/
theorem c5_disabled_short_circuit (C O : List Path) :
    find_putative_targets false C O = [] := rfl

/-- C6: for both formatting pathways, the subprocess argument vector is
exactly the executable, the literal subcommand "fmt", the user-supplied extra
arguments in order, then the batch's files, and the declared output files
equal the input files. -/
theorem c6_subprocess_contract (exe : Path) (args files : List Path) :
    (taplo_fmt_process exe args files).argv = exe :: pstr "fmt" :: (args ++ files) ∧
    (taplo_fmt_process exe args files).output_files = files ∧
    (pyproject_toml_fmt_process exe args files).argv =
      exe :: pstr "fmt" :: (args ++ files) ∧
    (pyproject_toml_fmt_process exe args files).output_files = files :=
  ⟨rfl, rfl, rfl, rfl⟩

/-- C7: the pyproject partitioner returns no partition when the skip option
is set, and otherwise a single partition that is sorted, duplicate-free, and
holds exactly the input paths containing "pyproject.toml" as a substring. -/
theorem c7_pyproject_partitioner (files : List Path) :
    partition_pyprojects true files = [] ∧
    ∃ p, partition_pyprojects false files = [p] ∧ p.Sorted (· ≤ ·) ∧ p.Nodup ∧
      ∀ f, f ∈ p ↔ f ∈ files ∧ ∃ pre post, f = pre ++ pstr "pyproject.toml" ++ post := by
  refine ⟨rfl, pysorted (pyproject_checker files), rfl,
    List.sorted_insertionSort _ _, ?_, ?_⟩
  · exact ((List.perm_insertionSort _ _).nodup_iff).mpr
      ((List.nodup_dedup _).filter _)
  · intro f
    rw [show pysorted (pyproject_checker files) =
      (pyproject_checker files).insertionSort (· ≤ ·) from rfl,
      (List.perm_insertionSort _ _).mem_iff]
    simp [pyproject_checker, List.mem_filter, containsSub_iff]

/-- C8: the configuration-file request carries the config_discovery option
(whose default is true) as its discovery flag, and its existence checks cover
both .taplo.toml and taplo.toml joined to the global root "" and to every
input directory — and nothing else. -/
theorem c8_config_request (config_discovery : Bool) (dirs : List Path) :
    (config_request config_discovery dirs).discovery = config_discovery ∧
    config_discovery_default = true ∧
    (∀ d ∈ pstr "" :: dirs,
      ospath_join d (pstr ".taplo.toml") ∈
        (config_request config_discovery dirs).check_existence ∧
      ospath_join d (pstr "taplo.toml") ∈
        (config_request config_discovery dirs).check_existence) ∧
    ∀ c ∈ (config_request config_discovery dirs).check_existence,
      ∃ d ∈ pstr "" :: dirs,
        c = ospath_join d (pstr ".taplo.toml") ∨ c = ospath_join d (pstr "taplo.toml") := by
  refine ⟨rfl, rfl, ?_, ?_⟩
  · intro d hd
    simp only [config_request, List.mem_append, List.mem_map]
    exact ⟨Or.inl ⟨d, hd, rfl⟩, Or.inr ⟨d, hd, rfl⟩⟩
  · intro c hc
    simp only [config_request, List.mem_append, List.mem_map] at hc
    rcases hc with ⟨d, hd, rfl⟩ | ⟨d, hd, rfl⟩
    · exact ⟨d, hd, Or.inl rfl⟩
    · exact ⟨d, hd, Or.inr rfl⟩

/-- C9: the per-entity skip flag defaults to false, the generator's source
glob defaults to *.toml with source-root redirection disabled, the
dependencies field is moved onto each generated target, and the common
fields are copied. -/
theorem c9_declarative_fields :
    SkipTaploField_default = false ∧
    TomlSourcesGeneratingSourcesField_default = [pstr "*.toml"] ∧
    TomlSourcesGeneratingSourcesField_uses_source_roots = false ∧
    TomlSourcesGeneratorTarget_spec.moved_fields = [TargetField.tomlDependencies] ∧
    TomlSourcesGeneratorTarget_spec.copied_fields = COMMON_TARGET_FIELDS :=
  ⟨rfl, rfl, rfl, rfl, rfl⟩

/-- C10: for every platform, generate_exe is "./" followed by the final
segment of the download URL with the ".gz" suffix removed, which for the
default template is "./taplo-" followed by the mapped platform name. -/
theorem c10_generate_exe (plat : Platform) :
    generate_exe plat =
      pstr "./" ++ removesuffix (pstr ".gz") (lastSegment (generate_url plat)) ∧
    generate_exe plat = pstr "./taplo-" ++ default_url_platform_mapping plat := by
  refine ⟨rfl, ?_⟩
  cases plat <;> decide

end TaploSpec
